import Mathlib

/-!
Shallow embedding of the `pyminio` multi-tier cache core
(`src/pyminio/memory/{base,ram,disk,cloud}.py`).

Conventions of the embedding:
* timestamps are rationals, measured in seconds (matching
  `datetime.total_seconds()`); `now` is passed explicitly wherever the
  Python code reads `datetime.datetime.now()`;
* Python `float` arithmetic on the score is modelled by exact rational
  arithmetic (the decimal literals 0.5, 0.3, 0.2 denote the exact
  rationals 1/2, 3/10, 1/5);
* Python byte strings are `List ℕ`; `None`-able values are `Option`;
* a Python `dict[str, T]` is an association list `List (String × T)`
  queried with `List.lookup`;
* a dict subscript `self.cells[key]` that can raise the builtin
  `KeyError` is an `Except PyKeyError` value.
-/

namespace PyMinio

/-- One Python `KeyError` raised by a failed `dict` subscript. -/
inductive PyKeyError where
  | keyError
deriving Repr, DecidableEq

/-! ### CacheStats (src/pyminio/memory/base.py, class CacheStats) -/

/-- `CacheStats.__init__` state: `hit_count`, `last_hit`, `size`, plus the
three fields the `score` property mutates on every read
(`recency`, `size_factor`, `_score`, the latter named `scoreCached` here). -/
structure CacheStats where
  hit_count : ℕ
  last_hit : ℚ
  size : ℕ
  recency : ℚ
  size_factor : ℚ
  scoreCached : ℚ
deriving Repr, DecidableEq

/-- `CacheStats(size)` constructor: zero hits, `last_hit = now`,
`recency = 1.0`, `size_factor = 1.0`, `_score = 0.5`. -/
def CacheStats.init (now : ℚ) (size : ℕ) : CacheStats :=
  { hit_count := 0, last_hit := now, size := size,
    recency := 1, size_factor := 1, scoreCached := 0.5 }

/-- `CacheStats.hit(size=None)`: increment `hit_count`, set
`last_hit = now`; the guard `if size:` is Python truthiness, so the
`size` field is overwritten only when the argument is given and nonzero. -/
def CacheStats.hit (s : CacheStats) (now : ℚ) (size : Option ℕ) : CacheStats :=
  let s1 : CacheStats := { s with hit_count := s.hit_count + 1, last_hit := now }
  match size with
  | some n => if n = 0 then s1 else { s1 with size := n }
  | none => s1

/-- The `recency` value the `score` property computes at time `now`:
`1.0 / (1.0 + (now - last_hit).total_seconds() / 3600)`. -/
def CacheStats.recencyAt (s : CacheStats) (now : ℚ) : ℚ :=
  1 / (1 + (now - s.last_hit) / 3600)

/-- The `size_factor` value the `score` property computes:
`1.0 / (1.0 + size / (1024 * 1024))`. -/
def CacheStats.sizeFactorAt (s : CacheStats) : ℚ :=
  1 / (1 + (s.size : ℚ) / (1024 * 1024))

/-- The `_score` value the `score` property computes at time `now`:
`0.5 * hit_count + 0.3 * recency + 0.2 * size_factor`. -/
def CacheStats.scoreVal (s : CacheStats) (now : ℚ) : ℚ :=
  0.5 * (s.hit_count : ℚ) + 0.3 * s.recencyAt now + 0.2 * s.sizeFactorAt

/-- Reading the `score` property at time `now`: recomputes `recency`,
`size_factor` and `_score` from the current time, stores them, and
returns the freshly computed `_score`. -/
def CacheStats.scoreRead (s : CacheStats) (now : ℚ) : ℚ × CacheStats :=
  (s.scoreVal now,
   { s with recency := s.recencyAt now, size_factor := s.sizeFactorAt,
            scoreCached := s.scoreVal now })

/-- The value returned by reading the `score` property at time `now`. -/
def CacheStats.score (s : CacheStats) (now : ℚ) : ℚ :=
  (s.scoreRead now).1

/-! ### MemoryManager (src/pyminio/memory/base.py, class MemoryManager)

Only the concrete (non-abstract) state and methods are embedded:
`__init__`, the `used`/`free`/`capacity` properties, `start` and `stop`.
`__aenter__`/`__aexit__` merely delegate to `start`/`stop`. -/

/-- An `asyncio.Task` handle, observed only through whether `cancel()`
has been requested on it. -/
structure TaskHandle where
  cancelled : Bool
deriving Repr, DecidableEq

/-- The concrete state `MemoryManager.__init__` sets up: `_capacity`,
`_size`, the `_rerank_event` flag (an `asyncio.Event`, initially unset),
`_running`, and the two optional background task handles.
(The generic `_cells` dict is held by the concrete tier managers below.) -/
structure MemoryManager where
  _capacity : ℤ
  _size : ℤ
  rerank_event : Bool
  _running : Bool
  _periodic_task : Option TaskHandle
  _forced_task : Option TaskHandle
deriving Repr, DecidableEq

/-- `MemoryManager.__init__(capacity)`: note that it sets
`self._running = True` already at construction. -/
def MemoryManager.init (capacity : ℤ) : MemoryManager :=
  { _capacity := capacity, _size := 0, rerank_event := false,
    _running := true, _periodic_task := none, _forced_task := none }

/-- The `used` property: `self._size`. -/
def MemoryManager.used (m : MemoryManager) : ℤ := m._size

/-- The `free` property: `self._capacity - self._size`. -/
def MemoryManager.free (m : MemoryManager) : ℤ := m._capacity - m._size

/-- The `capacity` property: `self._capacity`. -/
def MemoryManager.capacity (m : MemoryManager) : ℤ := m._capacity

/-- `MemoryManager.start()`: sets `_running = True` and spawns the two
background tasks (fresh handles, not cancelled). -/
def MemoryManager.start (m : MemoryManager) : MemoryManager :=
  { m with _running := true,
           _periodic_task := some { cancelled := false },
           _forced_task := some { cancelled := false } }

/-- `MemoryManager.stop()`: sets `_running = False`, clears
`_rerank_event`, and cancels each background task that exists
(`if self._periodic_task: ...cancel()`, a `Task` object is always
truthy, so the guard is exactly a `None` test). -/
def MemoryManager.stop (m : MemoryManager) : MemoryManager :=
  { m with _running := false,
           rerank_event := false,
           _periodic_task := m._periodic_task.map (fun t => { t with cancelled := true }),
           _forced_task := m._forced_task.map (fun t => { t with cancelled := true }) }

/-- The manager states reachable from `MemoryManager.__init__(c)` by the
concrete operations of the source (`start`, `stop`; `__aenter__` and
`__aexit__` only call these). -/
inductive MemoryManager.ReachableFrom (c : ℤ) : MemoryManager → Prop where
  | init : MemoryManager.ReachableFrom c (MemoryManager.init c)
  | start : ∀ m, MemoryManager.ReachableFrom c m → MemoryManager.ReachableFrom c m.start
  | stop : ∀ m, MemoryManager.ReachableFrom c m → MemoryManager.ReachableFrom c m.stop

/-! ### Tier cells (src/pyminio/memory/{ram,disk,cloud}.py) -/

/-- `RAMCell`: payload is raw bytes (or `None` after `__del__`). -/
structure RAMCell where
  key : String
  entity : Option (List ℕ)
  stats : CacheStats
deriving Repr, DecidableEq

/-- `DiskCell`: payload is a file path reference (or `None`). -/
structure DiskCell where
  key : String
  entity : Option String
  stats : CacheStats
deriving Repr, DecidableEq

/-- The possible values of `CloudCell.entity`: the constructor's
`(args, kwargs)` tuple, bytes written by `__set__`, or `None` set by
`__del__`. -/
inductive CloudPayload where
  | argsPair (args : List (List ℕ)) (kwargs : List (String × List ℕ))
  | bytes (b : List ℕ)
  | pyNone
deriving Repr, DecidableEq

/-- Python truthiness of a `CloudCell.entity` value: the `(args, kwargs)`
pair is a 2-tuple and hence always truthy; bytes are truthy iff
non-empty; `None` is falsy. -/
def CloudPayload.truthy : CloudPayload → Bool
  | .argsPair _ _ => true
  | .bytes b => !b.isEmpty
  | .pyNone => false

/-- Python `len` of a truthy `CloudCell.entity` value: 2 for the
`(args, kwargs)` pair, the byte count for bytes. (`len(None)` would
raise, but `__sizeof__` only applies `len` under the truthiness guard.) -/
def CloudPayload.pyLen : CloudPayload → ℕ
  | .argsPair _ _ => 2
  | .bytes b => b.length
  | .pyNone => 0

/-- `CloudCell`: payload is a deferred invocation, `call_fn` plus the
stored `(args, kwargs)` entity; `call_fn` resolves to bytes. -/
structure CloudCell where
  key : String
  entity : CloudPayload
  call_fn : CloudPayload → List ℕ
  stats : CacheStats

/-- `CloudCell.__init__(key, entity, call_fn)`: the base constructor
builds `CacheStats` with size 0 (the entity is a tuple, not bytes), and
`self.entity` is then set to the `(args, kwargs)` pair. -/
def CloudCell.make (key : String) (args : List (List ℕ))
    (kwargs : List (String × List ℕ)) (fn : CloudPayload → List ℕ)
    (now : ℚ) : CloudCell :=
  { key := key, entity := .argsPair args kwargs, call_fn := fn,
    stats := CacheStats.init now 0 }

/-- `CloudCell.__get__`: the body is `await self.call_fn(self.entity)`
with no `return` statement — the invocation is awaited, its result is
discarded, and the method returns Python `None`. -/
def CloudCell.get (c : CloudCell) : Option (List ℕ) :=
  let _resolved := c.call_fn c.entity
  none

/-- `CloudCell.__set__(value)`: `self.entity = value`. -/
def CloudCell.set (c : CloudCell) (value : List ℕ) : CloudCell :=
  { c with entity := .bytes value }

/-- `CloudCell.__del__`: `self.entity = None`. -/
def CloudCell.del (c : CloudCell) : CloudCell :=
  { c with entity := .pyNone }

/-- `CloudCell.__sizeof__`: `len(self.entity) if self.entity else 0`. -/
def CloudCell.sizeof (c : CloudCell) : ℕ :=
  if c.entity.truthy then c.entity.pyLen else 0

/-! ### Tier managers

Each tier manager adds `self.cells: dict[str, Cell]` on top of the base
state and implements `__getitem__(key)` as `return self.cells[key]` — a
plain dict subscript. `getitem` returns the lookup outcome paired with
the (unchanged) manager state after the call. -/

/-- `RAMManager`: base state plus `self.cells`. -/
structure RAMManager where
  base : MemoryManager
  cells : List (String × RAMCell)
deriving Repr, DecidableEq

/-- `RAMManager.__getitem__(key)`: `return self.cells[key]`. -/
def RAMManager.getitem (m : RAMManager) (key : String) :
    Except PyKeyError RAMCell × RAMManager :=
  (match m.cells.lookup key with
   | some c => .ok c
   | none => .error .keyError, m)

/-- `DiskManager`: base state plus `self.cells`. -/
structure DiskManager where
  base : MemoryManager
  cells : List (String × DiskCell)
deriving Repr, DecidableEq

/-- `DiskManager.__getitem__(key)`: `return self.cells[key]`. -/
def DiskManager.getitem (m : DiskManager) (key : String) :
    Except PyKeyError DiskCell × DiskManager :=
  (match m.cells.lookup key with
   | some c => .ok c
   | none => .error .keyError, m)

/-- `CloudManager`: base state plus `self.cells`. -/
structure CloudManager where
  base : MemoryManager
  cells : List (String × CloudCell)

/-- `CloudManager.__getitem__(key)`: `return self.cells[key]`. -/
def CloudManager.getitem (m : CloudManager) (key : String) :
    Except PyKeyError CloudCell × CloudManager :=
  (match m.cells.lookup key with
   | some c => .ok c
   | none => .error .keyError, m)

/-! ### Concrete fixtures used in counterexamples and witnesses -/

/-- A RAM cell holding three bytes, never hit (hit count 0). -/
def ramCellK : RAMCell :=
  { key := "k", entity := some [1, 2, 3], stats := CacheStats.init 0 3 }

/-- A RAM manager whose `cells` dict holds exactly `ramCellK` under "k". -/
def ramMgrK : RAMManager :=
  { base := MemoryManager.init 1024, cells := [("k", ramCellK)] }

/-- A disk cell referring to a path, never hit. -/
def diskCellK : DiskCell :=
  { key := "k", entity := some "/tmp/k", stats := CacheStats.init 0 0 }

/-- A disk manager holding exactly `diskCellK` under "k". -/
def diskMgrK : DiskManager :=
  { base := MemoryManager.init 1024, cells := [("k", diskCellK)] }

/-- A disk manager with an empty `cells` dict. -/
def diskMgrEmpty : DiskManager :=
  { base := MemoryManager.init 1024, cells := [] }

/-- A fresh cloud cell whose deferred invocation resolves to the two
bytes `b"hi"`; it has never been read or written. -/
def cloudCellK : CloudCell :=
  CloudCell.make "k" [] [] (fun _ => [104, 105]) 0

/-- A cloud manager holding exactly `cloudCellK` under "k". -/
def cloudMgrK : CloudManager :=
  { base := MemoryManager.init 1024, cells := [("k", cloudCellK)] }

/-- A fresh, unresolved cloud cell whose invocation would resolve to five
bytes. -/
def cloudCellFresh : CloudCell :=
  CloudCell.make "k7" [[1, 2, 3]] [] (fun _ => [1, 2, 3, 4, 5]) 0

/-- Stats constructed with a stored size of 5 bytes. -/
def statsSize5 : CacheStats := CacheStats.init 0 5

/-! ### Theorems -/

/-- C1: reading the `score` property at time `now` returns
`0.5*hit_count + 0.3*recency + 0.2*size_factor` with
`recency = 1/(1+h)` for `h` the hours elapsed since `last_hit`
(`h = seconds/3600`) and `size_factor = 1/(1 + size/2^20)`; moreover the
value is recomputed from the time of the read: any earlier read of the
property (which rewrites the cached `recency`, `size_factor` and
`_score` fields) leaves the value of a later read unchanged, so a stale
cached value is never served. -/
theorem score_matches_formula : ∀ (s : CacheStats) (now : ℚ),
    s.score now
      = 0.5 * (s.hit_count : ℚ)
        + 0.3 * (1 / (1 + (now - s.last_hit) / 3600))
        + 0.2 * (1 / (1 + (s.size : ℚ) / 2 ^ 20))
    ∧ ∀ t : ℚ, ((s.scoreRead t).2).score now = s.score now := by
  intro s now
  refine ⟨?_, fun t => rfl⟩
  norm_num [CacheStats.score, CacheStats.scoreRead, CacheStats.scoreVal,
            CacheStats.recencyAt, CacheStats.sizeFactorAt]

/-- C2 counterexample: the claim says a successful `get` records a hit
on the cell's stats; on the concrete manager `ramMgrK` holding the cell
`ramCellK` (hit count 0) under "k", the cell returned by `get("k")` does
not carry the incremented hit count. -/
theorem getitem_records_no_hit_cex :
    ¬ ((ramMgrK.getitem "k").1.toOption.map (fun c => c.stats.hit_count)
        = some (ramCellK.stats.hit_count + 1)) := by
  decide

/-- C2 (amended): for each tier manager (RAM, Disk, Cloud), `get(key)`
fails with the builtin `KeyError` when the key is absent, with no side
effect on the cache state; when the key is present it returns the stored
cell unchanged — no hit is recorded on the cell's stats — and likewise
leaves the cache state unchanged. -/
theorem getitem_behaviour :
    (∀ (m : RAMManager) (key : String),
        (m.cells.lookup key = none → m.getitem key = (.error .keyError, m))
        ∧ ∀ c, m.cells.lookup key = some c → m.getitem key = (.ok c, m))
    ∧ (∀ (m : DiskManager) (key : String),
        (m.cells.lookup key = none → m.getitem key = (.error .keyError, m))
        ∧ ∀ c, m.cells.lookup key = some c → m.getitem key = (.ok c, m))
    ∧ (∀ (m : CloudManager) (key : String),
        (m.cells.lookup key = none → m.getitem key = (.error .keyError, m))
        ∧ ∀ c, m.cells.lookup key = some c → m.getitem key = (.ok c, m)) := by
  refine ⟨fun m key => ⟨fun h => ?_, fun c h => ?_⟩,
          fun m key => ⟨fun h => ?_, fun c h => ?_⟩,
          fun m key => ⟨fun h => ?_, fun c h => ?_⟩⟩ <;>
    simp [RAMManager.getitem, DiskManager.getitem, CloudManager.getitem, h]

/-- C2 witness: `getitem_behaviour` applied to concrete managers — a
present key on each tier returns the stored cell with the state
unchanged, and an absent key raises `KeyError`. -/
theorem getitem_behaviour_witness :
    ramMgrK.getitem "k" = (.ok ramCellK, ramMgrK)
    ∧ diskMgrK.getitem "k" = (.ok diskCellK, diskMgrK)
    ∧ cloudMgrK.getitem "k" = (.ok cloudCellK, cloudMgrK)
    ∧ diskMgrEmpty.getitem "z" = (.error .keyError, diskMgrEmpty) :=
  ⟨(getitem_behaviour.1 ramMgrK "k").2 ramCellK rfl,
   (getitem_behaviour.2.1 diskMgrK "k").2 diskCellK rfl,
   (getitem_behaviour.2.2 cloudMgrK "k").2 cloudCellK rfl,
   (getitem_behaviour.2.1 diskMgrEmpty "z").1 rfl⟩

/-- C3: while a cell receives no hits its score is non-increasing as
time advances: for evaluation times `last_hit ≤ t1 ≤ t2` (time only
moves forward from the moment the stats were last updated), the score
read at `t2` is at most the score read at `t1`, with `hit_count` and
`size` held fixed. -/
theorem score_antitone_when_idle (s : CacheStats) (t1 t2 : ℚ)
    (h1 : s.last_hit ≤ t1) (h2 : t1 ≤ t2) :
    s.score t2 ≤ s.score t1 := by
  have hpos : (0 : ℚ) < 1 + (t1 - s.last_hit) / 3600 := by linarith
  have hle : 1 + (t1 - s.last_hit) / 3600 ≤ 1 + (t2 - s.last_hit) / 3600 := by
    linarith
  have hrec : 1 / (1 + (t2 - s.last_hit) / 3600)
      ≤ 1 / (1 + (t1 - s.last_hit) / 3600) :=
    one_div_le_one_div_of_le hpos hle
  simp only [CacheStats.score, CacheStats.scoreRead, CacheStats.scoreVal,
             CacheStats.recencyAt, CacheStats.sizeFactorAt]
  linarith

/-- C3 witness: `score_antitone_when_idle` at concrete stats and the
concrete times 3600 and 7200 seconds after the last hit. -/
theorem score_antitone_when_idle_witness :
    statsSize5.score 7200 ≤ statsSize5.score 3600 :=
  score_antitone_when_idle statsSize5 3600 7200
    (by norm_num [statsSize5, CacheStats.init]) (by norm_num)

/-- C4 counterexample: the claim says `get(key)` strictly increases the
cell's score immediately afterward, all else fixed; on `ramMgrK` the
cell returned by `get("k")` is exactly the stored cell `ramCellK`, and
its score at time 0 is not strictly greater than the score `ramCellK`
would have had at time 0 without the `get`. -/
theorem get_does_not_increase_score_cex :
    (ramMgrK.getitem "k").1 = Except.ok ramCellK
    ∧ ¬ (ramCellK.stats.score 0 < ramCellK.stats.score 0) :=
  ⟨rfl, lt_irrefl _⟩

/-- C4 (amended): `get(key)` on a present key leaves the cell's stats —
and hence its score at every evaluation time — unchanged: the returned
cell is the stored cell itself, the manager state is unchanged, and the
returned cell's score equals the stored cell's score. -/
theorem get_leaves_score_unchanged (m : RAMManager) (key : String)
    (c : RAMCell) (t : ℚ) (h : m.cells.lookup key = some c) :
    m.getitem key = (.ok c, m)
    ∧ (match (m.getitem key).1 with
       | .ok cret => cret.stats.score t
       | .error _ => 0) = c.stats.score t := by
  constructor
  · simp [RAMManager.getitem, h]
  · simp [RAMManager.getitem, h]

/-- C4 witness: `get_leaves_score_unchanged` at the concrete manager
`ramMgrK`, key "k" and evaluation time 0. -/
theorem get_leaves_score_unchanged_witness :
    ramMgrK.getitem "k" = (.ok ramCellK, ramMgrK)
    ∧ (match (ramMgrK.getitem "k").1 with
       | .ok cret => cret.stats.score 0
       | .error _ => 0) = ramCellK.stats.score 0 :=
  get_leaves_score_unchanged ramMgrK "k" ramCellK 0 rfl

/-- C5 counterexample: the claim says `hit(size)` with `size = 0`
overwrites the stored size with 0; on stats whose stored size is 5,
`hit` with explicit argument 0 leaves the size at 5 (the Python guard
`if size:` treats 0 as absent). -/
theorem hit_zero_size_cex :
    (statsSize5.hit 1 (some 0)).size = 5
    ∧ ¬ ((statsSize5.hit 1 (some 0)).size = 0) := by
  decide

/-- C5 (amended): every call to `hit` increments `hit_count` by exactly
1 and sets `last_hit` to the current time; the stored `size` field is
overwritten only when a nonzero size argument is given — passing
`size = 0`, like passing no size, leaves the field unchanged; the call
is a total state update and never fails. -/
theorem hit_updates_stats : ∀ (s : CacheStats) (now : ℚ) (sz : Option ℕ),
    (s.hit now sz).hit_count = s.hit_count + 1
    ∧ (s.hit now sz).last_hit = now
    ∧ (s.hit now sz).size =
        (match sz with
         | some n => if n = 0 then s.size else n
         | none => s.size) := by
  intro s now sz
  cases sz with
  | none => exact ⟨rfl, rfl, rfl⟩
  | some n =>
    by_cases hn : n = 0 <;> simp [CacheStats.hit, hn]

/-- C6: `CloudCell.__get__` awaits `call_fn(entity)` but has no `return`
statement, so it returns Python `None` instead of the resolved byte
content — contradicting its own `-> bytes` annotation and the base-class
contract. On the concrete cell `cloudCellK` the invocation resolves to
the bytes `b"hi"`, yet the read yields nothing. -/
theorem cloud_read_returns_none :
    cloudCellK.get = none
    ∧ cloudCellK.call_fn cloudCellK.entity = [104, 105] :=
  ⟨rfl, rfl⟩

/-- C7 counterexample: the claim says `sizeof` of an unresolved cloud
cell returns 0; on the fresh, never-read cell `cloudCellFresh` the code
returns `len(entity) = 2` — the length of the `(args, kwargs)` tuple —
which is neither 0 nor the byte size of any resolved result. -/
theorem cloud_sizeof_unresolved_cex :
    cloudCellFresh.sizeof = 2 ∧ ¬ (cloudCellFresh.sizeof = 0) := by
  decide

/-- C7 (amended): `CloudCell.__sizeof__` returns `len(entity)` when the
stored entity is truthy and 0 otherwise; the entity is the constructor's
`(args, kwargs)` pair — of Python length 2 — until overwritten, so a
fresh cell reports size 2, a cell after `write(value)` reports the byte
length of `value`, and a deleted cell reports 0. The resolved result of
the deferred invocation is never consulted. -/
theorem cloud_sizeof_behaviour : ∀ (key : String) (args : List (List ℕ))
    (kwargs : List (String × List ℕ)) (fn : CloudPayload → List ℕ)
    (now : ℚ) (c : CloudCell) (v : List ℕ),
    (CloudCell.make key args kwargs fn now).sizeof = 2
    ∧ (c.set v).sizeof = v.length
    ∧ (c.del).sizeof = 0 := by
  intro key args kwargs fn now c v
  refine ⟨rfl, ?_, rfl⟩
  cases v <;>
    simp [CloudCell.set, CloudCell.sizeof, CloudPayload.truthy,
          CloudPayload.pyLen]

/-- C8 counterexample: the claim says a newly constructed manager is in
the Stopped state; `MemoryManager.__init__` sets `_running = True`, so
the freshly constructed manager with capacity 1024 is already Running. -/
theorem init_running_cex :
    (MemoryManager.init 1024)._running = true
    ∧ ¬ ((MemoryManager.init 1024)._running = false) := by
  decide

/-- C8 (amended): a newly constructed manager already has
`_running = True` — it is Running before `start()` is ever called; the
transitions are as claimed otherwise: `start()` puts the manager in the
Running state and `stop()` in the Stopped state. -/
theorem lifecycle_transitions : ∀ (c : ℤ) (m : MemoryManager),
    (MemoryManager.init c)._running = true
    ∧ (m.start)._running = true
    ∧ (m.stop)._running = false := by
  intro c m
  exact ⟨rfl, rfl, rfl⟩

/-- C9: `stop()` is idempotent — stopping a stopped manager changes
nothing, so any run of consecutive `stop()` calls (including before any
`start()`, when both task handles are still `None`) leaves the state
identical to the state after a single `stop()`; the update is total, so
the call never fails. -/
theorem stop_idempotent : ∀ m : MemoryManager, m.stop.stop = m.stop := by
  intro m
  cases m with
  | mk cap sz ev run pt ft => cases pt <;> cases ft <;> rfl

/-- C10: in every state reachable from construction with capacity `c`
(by the concrete operations `start` and `stop`; `get` provably leaves
the state untouched), `used + free = capacity` holds exactly — `free`
being defined as `capacity - used` — and the reported capacity is still
the construction-time value `c`. -/
theorem size_accounting_invariant : ∀ (c : ℤ) (m : MemoryManager),
    MemoryManager.ReachableFrom c m →
    m.used + m.free = m.capacity ∧ m.capacity = c := by
  intro c m h
  have hsum : ∀ mm : MemoryManager, mm.used + mm.free = mm.capacity := by
    intro mm
    unfold MemoryManager.used MemoryManager.free MemoryManager.capacity
    omega
  refine ⟨hsum m, ?_⟩
  induction h with
  | init => rfl
  | start m' _ ih => exact ih
  | stop m' _ ih => exact ih

/-- C10 witness: `size_accounting_invariant` at the freshly constructed
manager of capacity 1024. -/
theorem size_accounting_invariant_witness :
    (MemoryManager.init 1024).used + (MemoryManager.init 1024).free
        = (MemoryManager.init 1024).capacity
    ∧ (MemoryManager.init 1024).capacity = 1024 :=
  size_accounting_invariant 1024 (MemoryManager.init 1024)
    MemoryManager.ReachableFrom.init

end PyMinio
